import Mathlib

/-!
Verification development for the hori USB flight-stick driver (src/hori.c).

The driver core is modelled as pure functions from a completion status and
the relevant raw data to an explicit effect record: the input events
published, the number of frame flushes, the log messages emitted (by
severity), the transfers submitted, and the transfers cancelled.  Each
completion handler and lifecycle entry point of hori.c is translated into
one such function, following the source switch/if structure case by case.
-/

/-! ## Constants from the source and from the Linux headers it uses -/

/-- Vendor request code for poll phase A (HORI_POLL_VR0, hori.c line 25). -/
def HORI_POLL_VR0 : Nat := 0x00

/-- Vendor request code for poll phase B (HORI_POLL_VR1, hori.c line 26). -/
def HORI_POLL_VR1 : Nat := 0x01

/-- The errno value ETIME (62): completion status -ETIME means a timeout. -/
def ETIME : Int := 62

/-- The errno value EPIPE (32): completion status -EPIPE means a stall. -/
def EPIPE : Int := 32

/-- The errno value ECONNRESET (104). -/
def ECONNRESET : Int := 104

/-- The errno value ENOENT (2). -/
def ENOENT : Int := 2

/-- The errno value ESHUTDOWN (108). -/
def ESHUTDOWN : Int := 108

/-- The errno value EPERM (1). -/
def EPERM : Int := 1

/-- The errno value of the generic I/O error (EIO, 5) returned by open and
resume on submission failure. -/
def EIOERR : Int := 5

/-- Linux input code ABS_X (0x00). -/
def ABS_X : Nat := 0x00

/-- Linux input code ABS_Y (0x01). -/
def ABS_Y : Nat := 0x01

/-- Linux input code ABS_Z (0x02). -/
def ABS_Z : Nat := 0x02

/-- Linux input code ABS_RX (0x03). -/
def ABS_RX : Nat := 0x03

/-- Linux input code ABS_RY (0x04). -/
def ABS_RY : Nat := 0x04

/-- Linux input code ABS_RZ (0x05). -/
def ABS_RZ : Nat := 0x05

/-- Linux input code ABS_THROTTLE (0x06). -/
def ABS_THROTTLE : Nat := 0x06

/-- Linux input code ABS_RUDDER (0x07). -/
def ABS_RUDDER : Nat := 0x07

/-- Linux input code BTN_TRIGGER (0x120). -/
def BTN_TRIGGER : Nat := 0x120

/-- Linux input code BTN_THUMB (0x121). -/
def BTN_THUMB : Nat := 0x121

/-- Linux input code BTN_THUMB2 (0x122). -/
def BTN_THUMB2 : Nat := 0x122

/-- Linux input code BTN_A (0x130). -/
def BTN_A : Nat := 0x130

/-- Linux input code BTN_B (0x131). -/
def BTN_B : Nat := 0x131

/-- Linux input code BTN_C (0x132). -/
def BTN_C : Nat := 0x132

/-- Linux input code BTN_X (0x133). -/
def BTN_X : Nat := 0x133

/-- Linux input code BTN_Y (0x134). -/
def BTN_Y : Nat := 0x134

/-- Linux input code BTN_TRIGGER_HAPPY1 (0x2c0). -/
def BTN_TRIGGER_HAPPY1 : Nat := 0x2c0

/-- Linux input code BTN_TRIGGER_HAPPY2 (0x2c1). -/
def BTN_TRIGGER_HAPPY2 : Nat := 0x2c1

/-- Linux input code BTN_TRIGGER_HAPPY3 (0x2c2). -/
def BTN_TRIGGER_HAPPY3 : Nat := 0x2c2

/-- Linux input code BTN_TRIGGER_HAPPY4 (0x2c3). -/
def BTN_TRIGGER_HAPPY4 : Nat := 0x2c3

/-- Linux input code BTN_TRIGGER_HAPPY5 (0x2c4). -/
def BTN_TRIGGER_HAPPY5 : Nat := 0x2c4

/-- Linux input code BTN_TRIGGER_HAPPY6 (0x2c5). -/
def BTN_TRIGGER_HAPPY6 : Nat := 0x2c5

/-- Linux input code BTN_TRIGGER_HAPPY7 (0x2c6). -/
def BTN_TRIGGER_HAPPY7 : Nat := 0x2c6

/-- Linux input code BTN_TRIGGER_HAPPY8 (0x2c7). -/
def BTN_TRIGGER_HAPPY8 : Nat := 0x2c7

/-! ## Data model -/

/-- Severity of a diagnostic message: dev_dbg, dev_warn or dev_err. -/
inductive LogLevel
  | dbg
  | warn
  | err
  deriving DecidableEq, Repr

/-- One published input event: input_report_key or input_report_abs. -/
inductive Event
  | key (code : Nat) (pressed : Bool)
  | abs (code : Nat) (value : Nat)
  deriving DecidableEq, Repr

/-- One transfer submission: the interrupt urb, or the control urb filled
with the given bRequest code (HORI_POLL_VR0 or HORI_POLL_VR1). -/
inductive Submission
  | intr
  | ctl (bRequest : Nat)
  deriving DecidableEq, Repr

/-- One of the two transfer objects of a session, as a cancellation target
of usb_kill_urb: hori->urb (interrupt) or hori->urb_ctl (control). -/
inductive Xfer
  | intr
  | ctl
  deriving DecidableEq, Repr

/-- The observable effects of running one completion handler or one
lifecycle entry point: events published via the input core, number of
input_sync frame flushes, log messages by severity, urbs submitted and
urbs cancelled. -/
structure Effects where
  events : List Event
  syncs : Nat
  logs : List LogLevel
  submits : List Submission
  kills : List Xfer
  deriving DecidableEq, Repr

/-- The bit fields of struct hori_raw_input_vr_00 (hori.c lines 29 to 49),
the poll-A report.  Every field holds the raw wire bit; all are
active-low, so a raw value of false denotes the pressed state. -/
structure HoriVr0 where
  fire_c : Bool
  button_d : Bool
  hat : Bool
  button_st : Bool
  dpad1_top : Bool
  dpad1_right : Bool
  dpad1_bottom : Bool
  dpad1_left : Bool
  reserved1 : Bool
  reserved2 : Bool
  reserved3 : Bool
  reserved4 : Bool
  reserved5 : Bool
  launch : Bool
  trigger : Bool
  reserved6 : Bool
  deriving DecidableEq, Repr

/-- The bit fields of struct hori_raw_input_vr_01 (hori.c lines 52 to 71),
the poll-B report.  mode_select is the raw 2-bit field; all single-bit
fields hold the raw active-low wire bit. -/
structure HoriVr1 where
  reserved1 : Bool
  reserved2 : Bool
  reserved3 : Bool
  reserved4 : Bool
  dpad3_right : Bool
  dpad3_middle : Bool
  dpad3_left : Bool
  reserved5 : Bool
  mode_select : Nat
  reserved6 : Bool
  button_sw1 : Bool
  dpad2_top : Bool
  dpad2_right : Bool
  dpad2_bottom : Bool
  dpad2_left : Bool
  deriving DecidableEq, Repr

/-- A poll-A report with every raw bit low, that is every active-low
input active. -/
def vr0AllActive : HoriVr0 :=
  { fire_c := false, button_d := false, hat := false, button_st := false,
    dpad1_top := false, dpad1_right := false, dpad1_bottom := false,
    dpad1_left := false, reserved1 := false, reserved2 := false,
    reserved3 := false, reserved4 := false, reserved5 := false,
    launch := false, trigger := false, reserved6 := false }

/-- A poll-B report with every raw bit low, that is every active-low
input active. -/
def vr1AllActive : HoriVr1 :=
  { reserved1 := false, reserved2 := false, reserved3 := false,
    reserved4 := false, dpad3_right := false, dpad3_middle := false,
    dpad3_left := false, reserved5 := false, mode_select := 0,
    reserved6 := false, button_sw1 := false, dpad2_top := false,
    dpad2_right := false, dpad2_bottom := false, dpad2_left := false }

/-- The session state relevant to the lifecycle entry points: the Is-Open
flag of struct hori (hori.c line 79). -/
structure Session where
  is_open : Bool
  deriving DecidableEq, Repr

/-- The result of one lifecycle entry point: its return value plus the
session state it leaves behind and the effects it performed. -/
structure LifecycleResult where
  ret : Int
  sess : Session
  events : List Event
  syncs : Nat
  logs : List LogLevel
  submits : List Submission
  kills : List Xfer
  deriving DecidableEq, Repr

/-! ## Status classification (spec section 4.1)

The source inlines status handling into each handler's switch statement;
the specification names the five classes.  specClassify is the spec's
Status Classifier, used to state the claims; the theorems relate it to
the switch arms of the source handlers. -/

/-- The five completion-status classes of the spec's Status Classifier. -/
inductive StatusClass
  | success
  | transientTimeout
  | terminated
  | protocolStall
  | unexpected
  deriving DecidableEq, Repr

/-- The spec's Status Classifier (section 4.1): 0 is SUCCESS, -ETIME is
TRANSIENT_TIMEOUT, -ECONNRESET / -ENOENT / -ESHUTDOWN are TERMINATED,
-EPIPE is PROTOCOL_STALL, everything else is UNEXPECTED. -/
def specClassify (status : Int) : StatusClass :=
  if status = 0 then .success
  else if status = -ETIME then .transientTimeout
  else if status = -ECONNRESET ∨ status = -ENOENT ∨ status = -ESHUTDOWN then .terminated
  else if status = -EPIPE then .protocolStall
  else .unexpected

/-! ## Report decode and event publication (from the source handlers) -/

/-- Events published by hori_poll_vr0_complete on a successful completion
(hori.c lines 148 to 162): key events for the ten poll-A inputs, each the
logical negation of the raw active-low bit. -/
def vr0Events (v : HoriVr0) : List Event :=
  [ .key BTN_TRIGGER_HAPPY1 (!v.fire_c),
    .key BTN_TRIGGER_HAPPY2 (!v.button_d),
    .key BTN_TRIGGER_HAPPY3 (!v.hat),
    .key BTN_TRIGGER_HAPPY4 (!v.button_st),
    .key BTN_TRIGGER_HAPPY5 (!v.dpad1_top),
    .key BTN_TRIGGER_HAPPY6 (!v.dpad1_right),
    .key BTN_TRIGGER_HAPPY7 (!v.dpad1_bottom),
    .key BTN_TRIGGER_HAPPY8 (!v.dpad1_left),
    .key BTN_THUMB (!v.launch),
    .key BTN_TRIGGER (!v.trigger) ]

/-- Events published by hori_poll_vr1_complete on a successful completion
(hori.c lines 237 to 250): four key events and the two ternary pad axes
ABS_Z and ABS_RZ, computed exactly as the source conditional expressions
on lines 249 and 250. -/
def vr1Events (v : HoriVr1) : List Event :=
  [ .key BTN_THUMB2 (!v.dpad3_right),
    .key BTN_C (!v.dpad3_middle),
    .key BTN_X (!v.dpad3_left),
    .key BTN_Y (!v.button_sw1),
    .abs ABS_Z (if !v.dpad2_left then 0 else if !v.dpad2_right then 2 else 1),
    .abs ABS_RZ (if !v.dpad2_top then 0 else if !v.dpad2_bottom then 2 else 1) ]

/-- Events published by hori_usb_irq on a successful 8-byte completion
(hori.c lines 316 to 324): six raw axis bytes and the two threshold
buttons, pressed when the raw byte is below 0xc0. -/
def irqEvents (data : List Nat) : List Event :=
  [ .abs ABS_X (data.getD 0 0),
    .abs ABS_Y (data.getD 1 0),
    .abs ABS_RUDDER (data.getD 2 0),
    .abs ABS_RX (data.getD 3 0),
    .abs ABS_RY (data.getD 4 0),
    .abs ABS_THROTTLE (data.getD 5 0),
    .key BTN_A (decide (data.getD 6 0 < 0xc0)),
    .key BTN_B (decide (data.getD 7 0 < 0xc0)) ]

/-! ## Completion handlers (translated switch by switch from hori.c) -/

/-- Translation of hori_poll_vr0_complete (hori.c lines 118 to 179).
The handler ignores the transfer's actual length (the urb field exists
but is never read): actual_length is a parameter to make that explicit.
On status 0 it decodes and publishes the poll-A report, flushes once and
submits the phase-B request; on -ETIME it warns and stops; on -EPIPE it
submits the phase-B request without decoding; on -ECONNRESET, -ENOENT or
-ESHUTDOWN it warns and stops; on any other status it logs an error and
submits the phase-B request. -/
def hori_poll_vr0_complete (status : Int) (_actual_length : Nat) (v : HoriVr0) : Effects :=
  if status = 0 then
    { events := vr0Events v, syncs := 1, logs := [],
      submits := [.ctl HORI_POLL_VR1], kills := [] }
  else if status = -ETIME then
    { events := [], syncs := 0, logs := [.warn], submits := [], kills := [] }
  else if status = -EPIPE then
    { events := [], syncs := 0, logs := [], submits := [.ctl HORI_POLL_VR1], kills := [] }
  else if status = -ECONNRESET ∨ status = -ENOENT ∨ status = -ESHUTDOWN then
    { events := [], syncs := 0, logs := [.warn], submits := [], kills := [] }
  else
    { events := [], syncs := 0, logs := [.err], submits := [.ctl HORI_POLL_VR1], kills := [] }

/-- Translation of hori_poll_vr1_complete (hori.c lines 203 to 261), the
mirror image of hori_poll_vr0_complete: same switch arms, decodes the
poll-B report and submits the phase-A request on the continuing arms.
The actual_length parameter is likewise never read by the handler. -/
def hori_poll_vr1_complete (status : Int) (_actual_length : Nat) (v : HoriVr1) : Effects :=
  if status = 0 then
    { events := vr1Events v, syncs := 1, logs := [],
      submits := [.ctl HORI_POLL_VR0], kills := [] }
  else if status = -ETIME then
    { events := [], syncs := 0, logs := [.warn], submits := [], kills := [] }
  else if status = -EPIPE then
    { events := [], syncs := 0, logs := [], submits := [.ctl HORI_POLL_VR0], kills := [] }
  else if status = -ECONNRESET ∨ status = -ENOENT ∨ status = -ESHUTDOWN then
    { events := [], syncs := 0, logs := [.warn], submits := [], kills := [] }
  else
    { events := [], syncs := 0, logs := [.err], submits := [.ctl HORI_POLL_VR0], kills := [] }

/-- Translation of hori_usb_irq (hori.c lines 285 to 340).  data is the
payload: the first actual_length bytes of the transfer buffer.  On
status 0 with an 8-byte payload it decodes, publishes, flushes once and
resubmits the interrupt read; on status 0 with any other payload length
it warns and still resubmits; on -ETIME it logs at debug level and
stops; on -ECONNRESET, -ENOENT, -ESHUTDOWN or -EPIPE it logs at debug
level and stops; on any other status it logs at debug level and
resubmits. -/
def hori_usb_irq (status : Int) (data : List Nat) : Effects :=
  if status = 0 then
    if data.length = 8 then
      { events := irqEvents data, syncs := 1, logs := [], submits := [.intr], kills := [] }
    else
      { events := [], syncs := 0, logs := [.warn], submits := [.intr], kills := [] }
  else if status = -ETIME then
    { events := [], syncs := 0, logs := [.dbg], submits := [], kills := [] }
  else if status = -ECONNRESET ∨ status = -ENOENT ∨ status = -ESHUTDOWN ∨ status = -EPIPE then
    { events := [], syncs := 0, logs := [.dbg], submits := [], kills := [] }
  else
    { events := [], syncs := 0, logs := [.dbg], submits := [.intr], kills := [] }

/-! ## Lifecycle entry points -/

/-- Logging behaviour of hori_poll_vr0 / hori_poll_vr1 (hori.c lines 198
to 200 and 280 to 282) after submitting the control urb: a nonzero
submission result other than -EPERM is logged as an error; the functions
return no value, so a failed submission never propagates. -/
def hori_poll_submit_logs (submitResult : Int) : List LogLevel :=
  if submitResult ≠ 0 ∧ submitResult ≠ -EPERM then [.err] else []

/-- Translation of hori_open (hori.c lines 342 to 360).  intrSubmitRes
and ctlSubmitRes are the environment's results for the interrupt and
control submissions.  A failed interrupt submission logs an error and
returns -EIO with the session untouched; otherwise Is-Open is set, the
phase-A poll is started via hori_poll_vr0, and 0 is returned regardless
of the control submission's result. -/
def hori_open (s : Session) (intrSubmitRes ctlSubmitRes : Int) : LifecycleResult :=
  if intrSubmitRes ≠ 0 then
    { ret := -EIOERR, sess := s, events := [], syncs := 0, logs := [.err],
      submits := [.intr], kills := [] }
  else
    { ret := 0, sess := { s with is_open := true }, events := [], syncs := 0,
      logs := hori_poll_submit_logs ctlSubmitRes,
      submits := [.intr, .ctl HORI_POLL_VR0], kills := [] }

/-- Translation of hori_close (hori.c lines 362 to 373): warn, cancel
both urbs, clear Is-Open. -/
def hori_close (s : Session) : LifecycleResult :=
  { ret := 0, sess := { s with is_open := false }, events := [], syncs := 0,
    logs := [.warn], submits := [], kills := [.intr, .ctl] }

/-- Translation of hori_suspend (hori.c lines 525 to 539): warn
unconditionally, cancel both urbs if Is-Open, leave the session state
untouched and return 0 always. -/
def hori_suspend (s : Session) : LifecycleResult :=
  { ret := 0, sess := s, events := [], syncs := 0, logs := [.warn],
    submits := [], kills := if s.is_open then [.intr, .ctl] else [] }

/-- Translation of hori_resume (hori.c lines 541 to 555).  If Is-Open and
the interrupt resubmission fails (result below 0), return -EIO; if
Is-Open and it succeeds, start the phase-A poll and return 0; if not
Is-Open, do nothing and return 0. -/
def hori_resume (s : Session) (intrSubmitRes ctlSubmitRes : Int) : LifecycleResult :=
  if s.is_open ∧ intrSubmitRes < 0 then
    { ret := -EIOERR, sess := s, events := [], syncs := 0, logs := [],
      submits := [.intr], kills := [] }
  else if s.is_open then
    { ret := 0, sess := s, events := [], syncs := 0,
      logs := hori_poll_submit_logs ctlSubmitRes,
      submits := [.intr, .ctl HORI_POLL_VR0], kills := [] }
  else
    { ret := 0, sess := s, events := [], syncs := 0, logs := [],
      submits := [], kills := [] }

/-! ## The control poll chain as a phase state machine -/

/-- The two phases of the control poll chain: PHASE_A is the VR0 request,
PHASE_B the VR1 request. -/
inductive Phase
  | A
  | B
  deriving DecidableEq, Repr

/-- The other phase. -/
def Phase.other : Phase → Phase
  | .A => .B
  | .B => .A

/-- The effects of the completion handler for the given phase's request:
phase A completions run hori_poll_vr0_complete, phase B completions run
hori_poll_vr1_complete.  Both poll reports are 2 bytes, so the nominal
actual length is 2. -/
def pollEffects (v0 : HoriVr0) (v1 : HoriVr1) (p : Phase) (status : Int) : Effects :=
  match p with
  | .A => hori_poll_vr0_complete status 2 v0
  | .B => hori_poll_vr1_complete status 2 v1

/-- The phase a control submission requests, read off its bRequest code. -/
def reqPhase (s : Submission) : Option Phase :=
  match s with
  | .intr => none
  | .ctl r =>
      if r = HORI_POLL_VR0 then some .A
      else if r = HORI_POLL_VR1 then some .B
      else none

/-- The control poll phases submitted among an effect record's
submissions. -/
def ctlSubmits (e : Effects) : List Phase :=
  e.submits.filterMap reqPhase

/-- One step of the control poll chain: the phase whose request the
completion handler of phase p submits at the given status, or none when
it submits no (unique) control request. -/
def chainStep (v0 : HoriVr0) (v1 : HoriVr1) (p : Phase) (status : Int) : Option Phase :=
  match ctlSubmits (pollEffects v0 v1 p status) with
  | [q] => some q
  | _ => none

/-- The sequence of phases the control poll chain visits from a starting
phase, driven by a list of completion statuses; the trace ends early at
the first completion from which the handler submits no further control
request. -/
def chainTrace (v0 : HoriVr0) (v1 : HoriVr1) : Phase → List Int → List Phase
  | p, [] => [p]
  | p, s :: rest =>
      match chainStep v0 v1 p s with
      | none => [p]
      | some q => p :: chainTrace v0 v1 q rest

/-- The strictly alternating phase sequence of length n + 1 starting at
phase p: p, p.other, p, p.other, and so on. -/
def altSeq : Phase → Nat → List Phase
  | p, 0 => [p]
  | p, n + 1 => p :: altSeq (Phase.other p) n

/-- A status on which the spec's classifier lets the control poll chain
continue: SUCCESS, PROTOCOL_STALL or UNEXPECTED. -/
def pollContinues (status : Int) : Prop :=
  specClassify status = .success ∨ specClassify status = .protocolStall ∨
    specClassify status = .unexpected

instance (status : Int) : Decidable (pollContinues status) := by
  unfold pollContinues
  infer_instance

/-- A status on which the spec's classifier halts the control poll chain:
TRANSIENT_TIMEOUT or TERMINATED. -/
def pollHalts (status : Int) : Prop :=
  specClassify status = .transientTimeout ∨ specClassify status = .terminated

instance (status : Int) : Decidable (pollHalts status) := by
  unfold pollHalts
  infer_instance

/-- Ternary pad-axis value, modelled from the spec's words (section 4.3):
low-edge active gives 0, else high-edge active gives 2, else 1; a
simultaneous low and high edge resolves to the low-edge branch.  The
arguments are the decoded (active-high) edge states. -/
def specPadTernary (lowActive highActive : Bool) : Nat :=
  if lowActive then 0 else if highActive then 2 else 1

/-! ## Helper lemmas -/

/-- Inversion: a status classifies as SUCCESS exactly when it is 0. -/
theorem specClassify_success_iff (st : Int) :
    specClassify st = .success ↔ st = 0 := by
  unfold specClassify
  split_ifs <;> simp_all [ETIME, ECONNRESET, ENOENT, ESHUTDOWN, EPIPE]

/-- Inversion: a status classifies as TRANSIENT_TIMEOUT exactly when it
is -ETIME. -/
theorem specClassify_timeout_iff (st : Int) :
    specClassify st = .transientTimeout ↔ st = -ETIME := by
  unfold specClassify
  split_ifs <;> simp_all [ETIME, ECONNRESET, ENOENT, ESHUTDOWN, EPIPE]

/-- Inversion: a status classifies as TERMINATED exactly when it is
-ECONNRESET, -ENOENT or -ESHUTDOWN. -/
theorem specClassify_terminated_iff (st : Int) :
    specClassify st = .terminated ↔
      st = -ECONNRESET ∨ st = -ENOENT ∨ st = -ESHUTDOWN := by
  unfold specClassify
  split_ifs <;> simp_all [ETIME, ECONNRESET, ENOENT, ESHUTDOWN, EPIPE]

/-- Inversion: a status classifies as PROTOCOL_STALL exactly when it is
-EPIPE. -/
theorem specClassify_stall_iff (st : Int) :
    specClassify st = .protocolStall ↔ st = -EPIPE := by
  unfold specClassify
  split_ifs <;> simp_all [ETIME, ECONNRESET, ENOENT, ESHUTDOWN, EPIPE] <;> omega

/-- Inversion: a status classifies as UNEXPECTED exactly when it is none
of the statuses the handlers switch on. -/
theorem specClassify_unexpected_iff (st : Int) :
    specClassify st = .unexpected ↔
      st ≠ 0 ∧ st ≠ -ETIME ∧ st ≠ -ECONNRESET ∧ st ≠ -ENOENT ∧
        st ≠ -ESHUTDOWN ∧ st ≠ -EPIPE := by
  unfold specClassify
  split_ifs <;> simp_all [ETIME, ECONNRESET, ENOENT, ESHUTDOWN, EPIPE] <;> omega

/-- The other phase of the other phase is the phase itself. -/
theorem Phase.other_other (p : Phase) : p.other.other = p := by
  cases p <;> rfl

/-- On a continuing status, the completion handler of either poll phase
submits exactly the other phase's control request. -/
theorem chainStep_continue (v0 : HoriVr0) (v1 : HoriVr1) (p : Phase)
    (s : Int) (h : pollContinues s) :
    chainStep v0 v1 p s = some p.other := by
  rcases h with h | h | h
  · rw [specClassify_success_iff] at h
    subst h
    cases p <;> rfl
  · rw [specClassify_stall_iff] at h
    subst h
    cases p <;> rfl
  · rw [specClassify_unexpected_iff] at h
    obtain ⟨h0, h1, h2, h3, h4, h5⟩ := h
    cases p <;>
      simp [chainStep, pollEffects, hori_poll_vr0_complete,
        hori_poll_vr1_complete, ctlSubmits, reqPhase, Phase.other,
        h0, h1, h2, h3, h4, h5, HORI_POLL_VR0, HORI_POLL_VR1]

/-- On a halting status, the completion handler of either poll phase
submits nothing at all. -/
theorem chainStep_halt (v0 : HoriVr0) (v1 : HoriVr1) (p : Phase)
    (s : Int) (h : pollHalts s) :
    (pollEffects v0 v1 p s).submits = [] ∧ chainStep v0 v1 p s = none := by
  rcases h with h | h
  · rw [specClassify_timeout_iff] at h
    subst h
    cases p <;> exact ⟨rfl, rfl⟩
  · rw [specClassify_terminated_iff] at h
    rcases h with h | h | h <;> subst h <;> cases p <;> exact ⟨rfl, rfl⟩

/-- On a halting status, the chain trace ends at the current phase. -/
theorem chainTrace_halt (v0 : HoriVr0) (v1 : HoriVr1) (p : Phase)
    (s : Int) (h : pollHalts s) (rest : List Int) :
    chainTrace v0 v1 p (s :: rest) = [p] := by
  simp [chainTrace, (chainStep_halt v0 v1 p s h).2]

/-- Under continuing statuses only, the chain trace from any phase is
the strictly alternating phase sequence. -/
theorem chainTrace_alt (v0 : HoriVr0) (v1 : HoriVr1) :
    ∀ (sts : List Int) (p : Phase), (∀ s ∈ sts, pollContinues s) →
      chainTrace v0 v1 p sts = altSeq p sts.length := by
  intro sts
  induction sts with
  | nil => intro p _; rfl
  | cons s rest ih =>
      intro p h
      have hs : pollContinues s := h s (List.mem_cons_self s rest)
      have hr : ∀ x ∈ rest, pollContinues x :=
        fun x hx => h x (List.mem_cons_of_mem s hx)
      simp [chainTrace, chainStep_continue v0 v1 p s hs,
        ih (Phase.other p) hr, altSeq]

/-- Within bounds, the alternating sequence holds its start phase at the
even indices and the other phase at the odd indices. -/
theorem altSeq_getD :
    ∀ (n : Nat) (p : Phase) (i : Nat) (d : Phase), i < n + 1 →
      (altSeq p n).getD i d = if i % 2 = 0 then p else Phase.other p := by
  intro n
  induction n with
  | zero =>
      intro p i d hi
      have : i = 0 := by omega
      subst this
      rfl
  | succ n ih =>
      intro p i d hi
      match i with
      | 0 => rfl
      | j + 1 =>
          have hj : j < n + 1 := by omega
          have hrec := ih (Phase.other p) j d hj
          have hstep : (altSeq p (n + 1)).getD (j + 1) d =
              (altSeq (Phase.other p) n).getD j d := rfl
          rw [hstep, hrec]
          by_cases h2 : j % 2 = 0
          · have h2s : (j + 1) % 2 = 1 := by omega
            simp [h2, h2s]
          · have h2s : (j + 1) % 2 = 0 := by omega
            simp [h2, h2s, Phase.other_other]

/-! ## Claim theorems -/

/-- C1: for the control poll chain started at PHASE_A, every completion
classified SUCCESS, PROTOCOL_STALL or UNEXPECTED makes the chain submit
the other phase's request, so the visited phase sequence is exactly
A, B, A, B, ...; and on the first TRANSIENT_TIMEOUT or TERMINATED
completion the handler submits nothing and the chain halts there. -/
theorem c1_poll_chain_alternation (v0 : HoriVr0) (v1 : HoriVr1)
    (sts : List Int) (h : ∀ s ∈ sts, pollContinues s) :
    chainTrace v0 v1 Phase.A sts = altSeq Phase.A sts.length
    ∧ (∀ i, i < sts.length + 1 →
        (altSeq Phase.A sts.length).getD i Phase.A =
          if i % 2 = 0 then Phase.A else Phase.B)
    ∧ (∀ (p : Phase) (t : Int), pollContinues t →
        chainStep v0 v1 p t = some p.other)
    ∧ (∀ (p : Phase) (t : Int), pollHalts t →
        (pollEffects v0 v1 p t).submits = []
        ∧ chainStep v0 v1 p t = none
        ∧ ∀ rest, chainTrace v0 v1 p (t :: rest) = [p]) := by
  refine ⟨chainTrace_alt v0 v1 sts Phase.A h, ?_, ?_, ?_⟩
  · intro i hi
    exact altSeq_getD sts.length Phase.A i Phase.A hi
  · intro p t ht
    exact chainStep_continue v0 v1 p t ht
  · intro p t ht
    exact ⟨(chainStep_halt v0 v1 p t ht).1, (chainStep_halt v0 v1 p t ht).2,
      fun rest => chainTrace_halt v0 v1 p t ht rest⟩

/-- Witness for C1 at the status list [0, -EPIPE, -999] (a SUCCESS, a
PROTOCOL_STALL and an UNEXPECTED completion). -/
theorem c1_poll_chain_alternation_witness :
    chainTrace vr0AllActive vr1AllActive Phase.A [0, -32, -999] =
      altSeq Phase.A 3
    ∧ (∀ i, i < 3 + 1 →
        (altSeq Phase.A 3).getD i Phase.A =
          if i % 2 = 0 then Phase.A else Phase.B)
    ∧ (∀ (p : Phase) (t : Int), pollContinues t →
        chainStep vr0AllActive vr1AllActive p t = some p.other)
    ∧ (∀ (p : Phase) (t : Int), pollHalts t →
        (pollEffects vr0AllActive vr1AllActive p t).submits = []
        ∧ chainStep vr0AllActive vr1AllActive p t = none
        ∧ ∀ rest, chainTrace vr0AllActive vr1AllActive p (t :: rest) = [p]) :=
  c1_poll_chain_alternation vr0AllActive vr1AllActive [0, -32, -999]
    (by decide)

/-- C2 counterexample: a completion with status -EPIPE is classified
PROTOCOL_STALL, yet hori_usb_irq submits nothing at all on it — the
interrupt read is not resubmitted, contradicting the claim. -/
theorem c2_stall_resubmission_counterexample :
    specClassify (-EPIPE) = StatusClass.protocolStall
    ∧ (hori_usb_irq (-EPIPE) []).submits = []
    ∧ Submission.intr ∉ (hori_usb_irq (-EPIPE) []).submits := by
  decide

/-- C2 amended: the interrupt handler resubmits the read exactly on
completions classified SUCCESS or UNEXPECTED; on TRANSIENT_TIMEOUT,
TERMINATED and also PROTOCOL_STALL (which hori_usb_irq groups with the
terminated statuses) it does not resubmit. -/
theorem c2_irq_resubmission_amended (st : Int) (data : List Nat) :
    ((specClassify st = .success ∨ specClassify st = .unexpected) →
      (hori_usb_irq st data).submits = [.intr])
    ∧ ((specClassify st = .transientTimeout ∨ specClassify st = .terminated ∨
          specClassify st = .protocolStall) →
      (hori_usb_irq st data).submits = []) := by
  constructor
  · rintro (h | h)
    · rw [specClassify_success_iff] at h
      subst h
      by_cases hl : data.length = 8 <;> simp [hori_usb_irq, hl]
    · rw [specClassify_unexpected_iff] at h
      obtain ⟨h0, h1, h2, h3, h4, h5⟩ := h
      simp [hori_usb_irq, h0, h1, h2, h3, h4, h5]
  · rintro (h | h | h)
    · rw [specClassify_timeout_iff] at h
      subst h
      rfl
    · rw [specClassify_terminated_iff] at h
      rcases h with h | h | h <;> subst h <;> rfl
    · rw [specClassify_stall_iff] at h
      subst h
      rfl

/-- Witness for C2 amended at status 0 (SUCCESS resubmits) and status
-ETIME (TRANSIENT_TIMEOUT does not). -/
theorem c2_irq_resubmission_amended_witness :
    (hori_usb_irq 0 []).submits = [.intr]
    ∧ (hori_usb_irq (-62) []).submits = [] :=
  ⟨(c2_irq_resubmission_amended 0 []).1 (Or.inl (by decide)),
    (c2_irq_resubmission_amended (-62) []).2 (Or.inl (by decide))⟩

/-- C3: a successful interrupt completion with an 8-byte payload
publishes the six raw axis bytes unscaled, button A pressed exactly when
byte 6 is below 0xc0, button B pressed exactly when byte 7 is below
0xc0, and exactly one frame flush; in particular the payload
[10, 20, 30, 40, 50, 60, 0xFF, 0x00] yields axis values
(10, 20, 30, 40, 50, 60), button A released, button B pressed and one
flush. -/
theorem c3_interrupt_decode (b0 b1 b2 b3 b4 b5 b6 b7 : Nat) :
    hori_usb_irq 0 [b0, b1, b2, b3, b4, b5, b6, b7] =
      { events := [ .abs ABS_X b0, .abs ABS_Y b1, .abs ABS_RUDDER b2,
          .abs ABS_RX b3, .abs ABS_RY b4, .abs ABS_THROTTLE b5,
          .key BTN_A (decide (b6 < 0xc0)), .key BTN_B (decide (b7 < 0xc0)) ],
        syncs := 1, logs := [], submits := [.intr], kills := [] }
    ∧ hori_usb_irq 0 [10, 20, 30, 40, 50, 60, 0xFF, 0x00] =
      { events := [ .abs ABS_X 10, .abs ABS_Y 20, .abs ABS_RUDDER 30,
          .abs ABS_RX 40, .abs ABS_RY 50, .abs ABS_THROTTLE 60,
          .key BTN_A false, .key BTN_B true ],
        syncs := 1, logs := [], submits := [.intr], kills := [] } := by
  exact ⟨rfl, by decide⟩

/-- C4 counterexample: the poll completion handlers perform no length
check at all — hori_poll_vr0_complete decodes and publishes a full frame
on a transfer whose actual length is 0, and hori_poll_vr1_complete does
so on one of actual length 5, contradicting the claim that each of the
three decoders rejects buffers whose size differs from the expected
report size. -/
theorem c4_poll_length_check_counterexample :
    (hori_poll_vr0_complete 0 0 vr0AllActive).events = vr0Events vr0AllActive
    ∧ (hori_poll_vr0_complete 0 0 vr0AllActive).events ≠ []
    ∧ (hori_poll_vr0_complete 0 0 vr0AllActive).syncs = 1
    ∧ (hori_poll_vr1_complete 0 5 vr1AllActive).events ≠ []
    ∧ (hori_poll_vr1_complete 0 5 vr1AllActive).syncs = 1 := by
  decide

/-- C4 amended: only the interrupt path checks the payload size — a
successful interrupt completion whose payload is not exactly 8 bytes is
rejected with a warning and without decoding or publishing — while the
two poll completion handlers decode and publish regardless of the
transfer's actual length. -/
theorem c4_length_check_amended (data : List Nat) (h : data.length ≠ 8)
    (len0 len1 : Nat) (v0 : HoriVr0) (v1 : HoriVr1) :
    (hori_usb_irq 0 data).events = []
    ∧ (hori_usb_irq 0 data).syncs = 0
    ∧ (hori_usb_irq 0 data).logs = [.warn]
    ∧ (hori_poll_vr0_complete 0 len0 v0).events = vr0Events v0
    ∧ (hori_poll_vr0_complete 0 len0 v0).syncs = 1
    ∧ (hori_poll_vr1_complete 0 len1 v1).events = vr1Events v1
    ∧ (hori_poll_vr1_complete 0 len1 v1).syncs = 1 := by
  refine ⟨?_, ?_, ?_, rfl, rfl, rfl, rfl⟩ <;> simp [hori_usb_irq, h]

/-- Witness for C4 amended at an empty interrupt payload and poll
transfers of lengths 0 and 5. -/
theorem c4_length_check_amended_witness :
    (hori_usb_irq 0 []).events = []
    ∧ (hori_usb_irq 0 []).syncs = 0
    ∧ (hori_usb_irq 0 []).logs = [.warn]
    ∧ (hori_poll_vr0_complete 0 0 vr0AllActive).events = vr0Events vr0AllActive
    ∧ (hori_poll_vr0_complete 0 0 vr0AllActive).syncs = 1
    ∧ (hori_poll_vr1_complete 0 5 vr1AllActive).events = vr1Events vr1AllActive
    ∧ (hori_poll_vr1_complete 0 5 vr1AllActive).syncs = 1 :=
  c4_length_check_amended [] (by decide) 0 5 vr0AllActive vr1AllActive

/-- C5: open fails with -EIO and changes nothing (Is-Open stays false,
no poll chain started) when the initial interrupt submission fails;
when it succeeds, open sets Is-Open, starts the poll chain at PHASE_A
and returns 0 for every control-submission result. -/
theorem c5_open_behavior (s : Session) (intrRes ctlRes : Int) :
    (intrRes ≠ 0 →
      hori_open s intrRes ctlRes =
        { ret := -EIOERR, sess := s, events := [], syncs := 0,
          logs := [.err], submits := [.intr], kills := [] }
      ∧ (s.is_open = false → (hori_open s intrRes ctlRes).sess.is_open = false)
      ∧ Submission.ctl HORI_POLL_VR0 ∉ (hori_open s intrRes ctlRes).submits)
    ∧ (intrRes = 0 →
      (hori_open s intrRes ctlRes).ret = 0
      ∧ (hori_open s intrRes ctlRes).sess.is_open = true
      ∧ Submission.intr ∈ (hori_open s intrRes ctlRes).submits
      ∧ Submission.ctl HORI_POLL_VR0 ∈ (hori_open s intrRes ctlRes).submits) := by
  constructor
  · intro h
    refine ⟨?_, ?_, ?_⟩ <;> simp [hori_open, h]
  · intro h
    refine ⟨?_, ?_, ?_, ?_⟩ <;> simp [hori_open, h]

/-- Witness for C5 on a closed session, at a failed interrupt submission
(-1) and at a successful one with a failed control submission (-1). -/
theorem c5_open_behavior_witness :
    (hori_open { is_open := false } (-1) (-1) =
      { ret := -EIOERR, sess := { is_open := false }, events := [],
        syncs := 0, logs := [.err], submits := [.intr], kills := [] }
      ∧ ({ is_open := false } : Session).is_open = false →
          (hori_open { is_open := false } (-1) (-1)).sess.is_open = false)
    ∧ (hori_open { is_open := false } 0 (-1)).ret = 0
    ∧ (hori_open { is_open := false } 0 (-1)).sess.is_open = true
    ∧ Submission.ctl HORI_POLL_VR0 ∈
        (hori_open { is_open := false } 0 (-1)).submits :=
  ⟨fun hh => (c5_open_behavior { is_open := false } (-1) (-1)).1
      (by decide) |>.2.1 hh.2,
    ((c5_open_behavior { is_open := false } 0 (-1)).2 rfl).1,
    ((c5_open_behavior { is_open := false } 0 (-1)).2 rfl).2.1,
    ((c5_open_behavior { is_open := false } 0 (-1)).2 rfl).2.2.2⟩

/-- C6: suspend on an open session cancels both transfers, returns 0 and
leaves Is-Open true; a resume on that session whose interrupt
resubmission succeeds submits the interrupt read and the PHASE_A poll
request, and no resume ever submits the PHASE_B request. -/
theorem c6_suspend_resume (s : Session) (h : s.is_open = true) (ctlRes : Int) :
    hori_suspend s =
      { ret := 0, sess := s, events := [], syncs := 0, logs := [.warn],
        submits := [], kills := [.intr, .ctl] }
    ∧ (hori_suspend s).sess.is_open = true
    ∧ hori_resume s 0 ctlRes =
      { ret := 0, sess := s, events := [], syncs := 0,
        logs := hori_poll_submit_logs ctlRes,
        submits := [.intr, .ctl HORI_POLL_VR0], kills := [] }
    ∧ (∀ r1 r2 : Int, Submission.ctl HORI_POLL_VR1 ∉
        (hori_resume s r1 r2).submits) := by
  refine ⟨?_, ?_, ?_, ?_⟩
  · simp [hori_suspend, h]
  · simp [hori_suspend, h]
  · simp [hori_resume, h]
  · intro r1 r2
    unfold hori_resume
    split_ifs <;> simp [HORI_POLL_VR0, HORI_POLL_VR1]

/-- Witness for C6 on the open session with a successful control
submission. -/
theorem c6_suspend_resume_witness :
    hori_suspend { is_open := true } =
      { ret := 0, sess := { is_open := true }, events := [], syncs := 0,
        logs := [.warn], submits := [], kills := [.intr, .ctl] }
    ∧ (hori_suspend { is_open := true }).sess.is_open = true
    ∧ hori_resume { is_open := true } 0 0 =
      { ret := 0, sess := { is_open := true }, events := [], syncs := 0,
        logs := hori_poll_submit_logs 0,
        submits := [.intr, .ctl HORI_POLL_VR0], kills := [] }
    ∧ (∀ r1 r2 : Int, Submission.ctl HORI_POLL_VR1 ∉
        (hori_resume { is_open := true } r1 r2).submits) :=
  c6_suspend_resume { is_open := true } rfl 0

/-- C7: a successful interrupt completion whose payload is not exactly
8 bytes emits one warning, decodes nothing, publishes nothing, flushes
nothing, and still resubmits the interrupt read. -/
theorem c7_irq_length_mismatch (data : List Nat) (h : data.length ≠ 8) :
    hori_usb_irq 0 data =
      { events := [], syncs := 0, logs := [.warn], submits := [.intr],
        kills := [] } := by
  simp [hori_usb_irq, h]

/-- Witness for C7 at the empty payload. -/
theorem c7_irq_length_mismatch_witness :
    hori_usb_irq 0 [] =
      { events := [], syncs := 0, logs := [.warn], submits := [.intr],
        kills := [] } :=
  c7_irq_length_mismatch [] (by decide)

/-- C8 counterexample: status -ESHUTDOWN is classified TERMINATED, yet
both poll completion handlers log it at warning level, not at debug
level, contradicting the claim that every leg logs TERMINATED only at
debug level. -/
theorem c8_terminated_logging_counterexample :
    specClassify (-ESHUTDOWN) = StatusClass.terminated
    ∧ (hori_poll_vr0_complete (-ESHUTDOWN) 2 vr0AllActive).logs =
        [LogLevel.warn]
    ∧ (hori_poll_vr1_complete (-ESHUTDOWN) 2 vr1AllActive).logs =
        [LogLevel.warn]
    ∧ LogLevel.warn ≠ LogLevel.dbg := by
  decide

/-- C8 amended: on a completion classified TERMINATED every leg takes no
further action — no decode, no publish, no resubmission, no phase
advance — and none logs an error; the interrupt leg logs at debug
level, but the two poll legs log at warning level. -/
theorem c8_terminated_behavior_amended (st : Int)
    (h : specClassify st = .terminated) (data : List Nat)
    (len0 len1 : Nat) (v0 : HoriVr0) (v1 : HoriVr1) :
    hori_usb_irq st data =
      { events := [], syncs := 0, logs := [.dbg], submits := [], kills := [] }
    ∧ hori_poll_vr0_complete st len0 v0 =
      { events := [], syncs := 0, logs := [.warn], submits := [], kills := [] }
    ∧ hori_poll_vr1_complete st len1 v1 =
      { events := [], syncs := 0, logs := [.warn], submits := [], kills := [] }
    ∧ LogLevel.err ∉ (hori_usb_irq st data).logs
    ∧ LogLevel.err ∉ (hori_poll_vr0_complete st len0 v0).logs
    ∧ LogLevel.err ∉ (hori_poll_vr1_complete st len1 v1).logs := by
  rw [specClassify_terminated_iff] at h
  rcases h with h | h | h <;> subst h <;>
    refine ⟨rfl, rfl, rfl, ?_, ?_, ?_⟩ <;>
    · intro hmem
      cases hmem
      rename_i hmem2
      cases hmem2

/-- Witness for C8 amended at status -ENOENT. -/
theorem c8_terminated_behavior_amended_witness :
    hori_usb_irq (-2) [] =
      { events := [], syncs := 0, logs := [.dbg], submits := [], kills := [] }
    ∧ hori_poll_vr0_complete (-2) 2 vr0AllActive =
      { events := [], syncs := 0, logs := [.warn], submits := [], kills := [] }
    ∧ hori_poll_vr1_complete (-2) 2 vr1AllActive =
      { events := [], syncs := 0, logs := [.warn], submits := [], kills := [] }
    ∧ LogLevel.err ∉ (hori_usb_irq (-2) []).logs
    ∧ LogLevel.err ∉ (hori_poll_vr0_complete (-2) 2 vr0AllActive).logs
    ∧ LogLevel.err ∉ (hori_poll_vr1_complete (-2) 2 vr1AllActive).logs :=
  c8_terminated_behavior_amended (-2) (by decide) [] 2 2
    vr0AllActive vr1AllActive

/-- C9: on every successful poll-B completion the two pad axes ABS_Z and
ABS_RZ are published with the ternary value of the spec's rule — active
low edge gives 0, else active high edge gives 2, else 1 — applied to
the decoded active-low direction bits, and the rule resolves a
simultaneous low and high edge to 0 (low-edge precedence). -/
theorem c9_pad_ternary_axes (v : HoriVr1) (len : Nat) :
    (hori_poll_vr1_complete 0 len v).events =
      [ .key BTN_THUMB2 (!v.dpad3_right),
        .key BTN_C (!v.dpad3_middle),
        .key BTN_X (!v.dpad3_left),
        .key BTN_Y (!v.button_sw1),
        .abs ABS_Z (specPadTernary (!v.dpad2_left) (!v.dpad2_right)),
        .abs ABS_RZ (specPadTernary (!v.dpad2_top) (!v.dpad2_bottom)) ]
    ∧ specPadTernary true false = 0
    ∧ specPadTernary false true = 2
    ∧ specPadTernary false false = 1
    ∧ specPadTernary true true = 0 := by
  exact ⟨rfl, rfl, rfl, rfl, rfl⟩

/-- C10: on a session that is not open, suspend and resume both return
0, cancel nothing, submit nothing and leave the session unchanged; and
suspend returns 0 on every session state. -/
theorem c10_closed_suspend_resume (s : Session) (h : s.is_open = false)
    (r1 r2 : Int) :
    hori_suspend s =
      { ret := 0, sess := s, events := [], syncs := 0, logs := [.warn],
        submits := [], kills := [] }
    ∧ hori_resume s r1 r2 =
      { ret := 0, sess := s, events := [], syncs := 0, logs := [],
        submits := [], kills := [] }
    ∧ (∀ t : Session, (hori_suspend t).ret = 0) := by
  refine ⟨?_, ?_, fun t => rfl⟩
  · simp [hori_suspend, h]
  · simp [hori_resume, h]

/-- Witness for C10 on the closed session with resubmission results -1
and 0. -/
theorem c10_closed_suspend_resume_witness :
    hori_suspend { is_open := false } =
      { ret := 0, sess := { is_open := false }, events := [], syncs := 0,
        logs := [.warn], submits := [], kills := [] }
    ∧ hori_resume { is_open := false } (-1) 0 =
      { ret := 0, sess := { is_open := false }, events := [], syncs := 0,
        logs := [], submits := [], kills := [] }
    ∧ (∀ t : Session, (hori_suspend t).ret = 0) :=
  c10_closed_suspend_resume { is_open := false } rfl (-1) 0
